import Mathlib

/-!
Verification of the `s3bucket` storage-billing engine.

The Python module `s3bucket.py` is shallowly embedded below.  Month keys
`YYYY-mm` are encoded as absolute month indices (`year * 12 + (monthOfYear - 1)`,
so `"2020-01" = 24240`, `"2020-02" = 24241`, …); lexicographic comparison of the
fixed-width month strings coincides with `≤` on this encoding, and the
`dateutil`-based calendar subtraction `_substr_months` becomes subtraction on
the index.  Dollar amounts and gigabyte volumes are embedded as exact rationals
(`ℚ`); Python float literals such as `0.023` are read as the rationals they
denote.  The mutable bucket object becomes a state value threaded explicitly;
Python dicts become association lists in insertion order.
-/

-- Storage rates: module-level constants of s3bucket.py.
def s3_standard_first_50TB : ℚ := 0.023
def s3_standard_next_450TB : ℚ := 0.022
def s3_standard_over_500TB : ℚ := 0.021
def glacier_storage_rate : ℚ := 0.004

-- PUT request rate.
def s3_standard_1000_PUT_requests : ℚ := 0.005

-- Glacier transition request rate.
def glacier_transition_1000_requests : ℚ := 0.05

/-- `LifecycleRule = namedtuple('LifecycleRule', ['transition', 'period'])`. -/
structure LifecycleRule where
  transition : String
  period : ℕ
deriving DecidableEq, Repr

/-- `S3UploadEntry.__init__`: number of objects, average object size (GB),
and the storage class, which starts as `"s3standard"`. -/
structure S3UploadEntry where
  numberOfObjects : ℕ
  objectSize : ℚ
  storageClass : String
deriving DecidableEq, Repr

/-- `S3UploadEntry(avg_obj_size, objects_num)` constructor: fresh entries carry
storage class `"s3standard"`. -/
def mkS3UploadEntry (avgObjSize : ℚ) (objectsNum : ℕ) : S3UploadEntry :=
  { numberOfObjects := objectsNum, objectSize := avgObjSize, storageClass := "s3standard" }

/-- `get_total_size`: objects × average size, in GB. -/
def S3UploadEntry.getTotalSize (e : S3UploadEntry) : ℚ :=
  e.numberOfObjects * e.objectSize

/-- `get_num_of_objects`. -/
def S3UploadEntry.getNumOfObjects (e : S3UploadEntry) : ℕ :=
  e.numberOfObjects

/-- `get_storage_class`. -/
def S3UploadEntry.getStorageClass (e : S3UploadEntry) : String :=
  e.storageClass

/-- `move_to_glacier`: set the storage class to `"glacier"`. -/
def S3UploadEntry.moveToGlacier (e : S3UploadEntry) : S3UploadEntry :=
  { e with storageClass := "glacier" }

/-- The bucket state: `self._data` (month → upload entries, in insertion
order) and `self._lifecycle_rules`. -/
structure S3Bucket where
  data : List (ℕ × List S3UploadEntry)
  lifecycleRules : List LifecycleRule
deriving DecidableEq, Repr

/-- A freshly constructed `S3Bucket()`. -/
def emptyBucket : S3Bucket := { data := [], lifecycleRules := [] }

/-- `_substr_months(m1, m2)`: subtract `m2` calendar months from month `m1`.
On the absolute month-index encoding this is plain subtraction. -/
def substrMonths (m1 : ℕ) (m2 : ℕ) : ℕ := m1 - m2

/-- `add_lifecycle_rule`. -/
def S3Bucket.addLifecycleRule (b : S3Bucket) (r : LifecycleRule) : S3Bucket :=
  { b with lifecycleRules := b.lifecycleRules ++ [r] }

/-- `upload_data`: append to the month's list, creating the key if absent. -/
def S3Bucket.uploadData (b : S3Bucket) (month : ℕ) (d : S3UploadEntry) : S3Bucket :=
  if (b.data.map Prod.fst).contains month then
    { b with data := b.data.map (fun kv => if kv.1 = month then (kv.1, kv.2 ++ [d]) else kv) }
  else
    { b with data := b.data ++ [(month, [d])] }

/-- `apply_transition(month, transition)`.  The source filters the month's
entries with `lambda el: el.get_storage_class != transition`, which compares
the bound method itself (not its return value) with the string, so in Python
the predicate is true of every entry and no entry is excluded.  Only the
`'glacier'` branch mutates anything; the `'somethingelse'` branch is an empty
TODO and every other target falls through, leaving the state unchanged. -/
def S3Bucket.applyTransition (b : S3Bucket) (month : ℕ) (transition : String) : S3Bucket :=
  if transition = "glacier" then
    { b with data := b.data.map (fun kv =>
        if kv.1 = month then (kv.1, kv.2.map S3UploadEntry.moveToGlacier) else kv) }
  else b

/-- `s3standard_objects`: months mapped to their `"s3standard"`-class entries,
with months whose filtered list is empty removed (funcy `compact`). -/
def S3Bucket.s3standardObjects (b : S3Bucket) : List (ℕ × List S3UploadEntry) :=
  b.data.filterMap (fun kv =>
    let filtered := kv.2.filter (fun e => e.storageClass == "s3standard")
    if filtered.isEmpty then none else some (kv.1, filtered))

/-- The rule loop of `apply_lifecycle_rules`, with the rule list as an explicit
argument (the source iterates `self._lifecycle_rules`, which no transition
modifies). -/
def applyRulesAux (currentMonth : ℕ) (rules : List LifecycleRule) (s : S3Bucket) : S3Bucket :=
  rules.foldl (fun st rule =>
    let oldestDataToKeep := substrMonths currentMonth rule.period
    let keysToMigrate :=
      (st.s3standardObjects.map Prod.fst).filter (fun k => decide (k < oldestDataToKeep))
    keysToMigrate.foldl (fun st2 k => st2.applyTransition k rule.transition) st) s

/-- `apply_lifecycle_rules(current_month)`. -/
def S3Bucket.applyLifecycleRules (b : S3Bucket) (currentMonth : ℕ) : S3Bucket :=
  applyRulesAux currentMonth b.lifecycleRules b

/-- `get_month_volume(month, storage_class)`: total size of all entries of the
given class uploaded in any month-key `≤ month`. -/
def S3Bucket.getMonthVolume (b : S3Bucket) (month : ℕ) (storageClass : String) : ℚ :=
  ((((b.data.filter (fun kv => decide (kv.1 ≤ month))).map Prod.snd).flatten.filter
      (fun e => e.storageClass == storageClass)).map S3UploadEntry.getTotalSize).sum

/-- `get_month_requests(month)`: object count of that month's uploads, `0` if
the month key is absent. -/
def S3Bucket.getMonthRequests (b : S3Bucket) (month : ℕ) : ℕ :=
  match b.data.lookup month with
  | some entries => (entries.map S3UploadEntry.getNumOfObjects).sum
  | none => 0

/-- Python dict assignment `d[k] = v` on an insertion-ordered association
list: overwrite in place if the key exists, otherwise append. -/
def dictInsert (d : List (String × ℕ)) (k : String) (v : ℕ) : List (String × ℕ) :=
  if d.any (fun p => p.1 == k) then d.map (fun p => if p.1 = k then (k, v) else p)
  else d ++ [(k, v)]

/-- `get_month_transitions(month)`: for each rule whose source month
(`month − period`) has uploads, map the rule's transition target to the object
count of that source month. -/
def S3Bucket.getMonthTransitions (b : S3Bucket) (month : ℕ) : List (String × ℕ) :=
  let transitions := b.lifecycleRules.filter
    (fun r => (b.data.map Prod.fst).contains (substrMonths month r.period))
  transitions.foldl (fun result t =>
    let monthToMigrate := substrMonths month t.period
    dictInsert result t.transition
      ((((b.data.lookup monthToMigrate).getD []).map S3UploadEntry.getNumOfObjects).sum)) []

/-- `_get_s3_standard_storage_charges(volume)`: tiered standard-class rate.
For `volume < 0` the Python function falls off the end and returns `None`,
modelled as `none`. -/
def getS3StandardStorageCharges (volume : ℚ) : Option ℚ :=
  if volume ≥ 500000 then
    some (50000 * s3_standard_first_50TB + 450000 * s3_standard_next_450TB +
      (volume - 500000) * s3_standard_over_500TB)
  else if volume ≥ 50000 then
    some (50000 * s3_standard_first_50TB + (volume - 50000) * s3_standard_next_450TB)
  else if volume ≥ 0 then
    some (volume * s3_standard_first_50TB)
  else none

/-- `_get_glacier_storage_charges(volume)`. -/
def getGlacierStorageCharges (volume : ℚ) : ℚ :=
  volume * glacier_storage_rate

/-- `_get_request_charges(num)`. -/
def getRequestCharges (num : ℕ) : ℚ :=
  (num : ℚ) / 1000 * s3_standard_1000_PUT_requests

/-- `_get_transition_charges(transitions)`: price the `'glacier'` entry of the
mapping; a missing key (`KeyError`) yields `0`. -/
def getTransitionCharges (transitions : List (String × ℕ)) : ℚ :=
  match transitions.lookup "glacier" with
  | some n => (n : ℚ) / 1000 * glacier_transition_1000_requests
  | none => 0

/-- The dict returned by `get_monthly_charges`. -/
structure MonthlyCharges where
  s3_standard_storage_charges : Option ℚ
  s3_glacier_storage_charges : ℚ
  put_request_charges : ℚ
  transition_charges : ℚ
  s3st_volume : ℚ
  glacier_volume : ℚ
deriving DecidableEq, Repr

/-- `get_monthly_charges(month)`. -/
def S3Bucket.getMonthlyCharges (b : S3Bucket) (month : ℕ) : MonthlyCharges :=
  { s3_standard_storage_charges :=
      getS3StandardStorageCharges (b.getMonthVolume month "s3standard")
    s3_glacier_storage_charges := getGlacierStorageCharges (b.getMonthVolume month "glacier")
    put_request_charges := getRequestCharges (b.getMonthRequests month)
    transition_charges := getTransitionCharges (b.getMonthTransitions month)
    s3st_volume := b.getMonthVolume month "s3standard"
    glacier_volume := b.getMonthVolume month "glacier" }

/-- The loop of `generate_report`, iterating an explicit list of month keys:
for each key, first apply all lifecycle rules as of that month (mutating the
state), then record that month's charges. -/
def generateReportKeys (b : S3Bucket) (keys : List ℕ) : S3Bucket × List (ℕ × MonthlyCharges) :=
  keys.foldl (fun acc m =>
    let st := acc.1.applyLifecycleRules m
    (st, acc.2 ++ [(m, st.getMonthlyCharges m)])) (b, [])

/-- `generate_report()`: iterate `self._data.keys()` in insertion order,
returning the mutated state together with the report. -/
def S3Bucket.generateReport (b : S3Bucket) : S3Bucket × List (ℕ × MonthlyCharges) :=
  generateReportKeys b (b.data.map Prod.fst)

/-- The dict returned by `get_totals`. -/
structure Totals where
  storage_charges : ℚ
  put_request_charges : ℚ
  transition_charges : ℚ
deriving DecidableEq, Repr

/-- `get_totals()`: fold the report's charges.  Adding the standard storage
charge would raise a `TypeError` if it were `None`, modelled by the `Option`
fold producing `none` in that case. -/
def S3Bucket.getTotals (b : S3Bucket) : Option Totals :=
  let report := b.generateReport.2
  ((report.foldlM (fun (acc : ℚ) (kv : ℕ × MonthlyCharges) =>
      kv.2.s3_standard_storage_charges.map
        (fun c => acc + c + kv.2.s3_glacier_storage_charges)) (0 : ℚ) : Option ℚ)).map
    (fun totalStorage =>
      { storage_charges := totalStorage
        put_request_charges := (report.map (fun kv => kv.2.put_request_charges)).sum
        transition_charges := (report.map (fun kv => kv.2.transition_charges)).sum })

/-!
Auxiliary definitions for the verification.

`hasStd`, `anyStdKey` and `glacierCond` are observations on bucket data used
to state the closed form of `applyLifecycleRules`; `migrateStep` is that
closed form's per-month action.  `BucketOp` and `runOps` model arbitrary call
sequences on a bucket.  Spec-side reformulations (`monthVolumeSpec`,
`applyTransitionSpec`) restate the specification's wording for comparison
with the embedded source.
-/

/-- Does the entry list contain an `"s3standard"`-class entry? -/
def hasStd (v : List S3UploadEntry) : Bool :=
  v.any (fun e => e.storageClass == "s3standard")

/-- Does any pair of the data list with key `k` hold an `"s3standard"` entry? -/
def anyStdKey (d : List (ℕ × List S3UploadEntry)) (k : ℕ) : Bool :=
  d.any (fun kv => kv.1 == k && hasStd kv.2)

/-- Is there a rule with target `"glacier"` whose cutoff for evaluation month
`M` lies strictly above month `k`? -/
def glacierCond (rules : List LifecycleRule) (M k : ℕ) : Bool :=
  rules.any (fun r => r.transition == "glacier" && decide (k < substrMonths M r.period))

/-- Per-month action of one `apply_lifecycle_rules(M)` call, relative to the
data list `d` the call started from. -/
def migrateStep (rules : List LifecycleRule) (M : ℕ) (d : List (ℕ × List S3UploadEntry))
    (kv : ℕ × List S3UploadEntry) : ℕ × List S3UploadEntry :=
  if glacierCond rules M kv.1 && anyStdKey d kv.1 then
    (kv.1, kv.2.map S3UploadEntry.moveToGlacier)
  else kv

/-- Every entry of the bucket carries one of the two modelled storage classes:
the invariant of states reachable through `upload_data` and transitions. -/
def wfClasses (b : S3Bucket) : Prop :=
  ∀ kv ∈ b.data, ∀ e ∈ kv.2, e.storageClass = "s3standard" ∨ e.storageClass = "glacier"

/-- A single bucket-mutating call, for stating invariants over arbitrary call
sequences. -/
inductive BucketOp where
  | applyRules (currentMonth : ℕ)
  | transitionOp (month : ℕ) (target : String)
  | addRule (r : LifecycleRule)
deriving DecidableEq, Repr

/-- Run one call on the bucket state. -/
def applyOp (b : S3Bucket) : BucketOp → S3Bucket
  | .applyRules m => b.applyLifecycleRules m
  | .transitionOp m t => b.applyTransition m t
  | .addRule r => b.addLifecycleRule r

/-- Run a sequence of calls. -/
def runOps (b : S3Bucket) (ops : List BucketOp) : S3Bucket :=
  ops.foldl applyOp b

/-- Entry-level monotonicity: an archived entry stays archived. -/
def entryMono (e e' : S3UploadEntry) : Prop :=
  e.storageClass = "glacier" → e'.storageClass = "glacier"

/-- Month-level monotonicity: same month key, entries pointwise monotone. -/
def pairMono (kv kv' : ℕ × List S3UploadEntry) : Prop :=
  kv.1 = kv'.1 ∧ List.Forall₂ entryMono kv.2 kv'.2

/-- Data-level monotonicity between two bucket data lists. -/
def dataMono (d d' : List (ℕ × List S3UploadEntry)) : Prop :=
  List.Forall₂ pairMono d d'

/-- Modelled from the spec: §4.4's description of `monthVolume` — the sum,
over every month-key `≤ month`, of the total sizes of that month's records of
the given class (cumulative-to-date volume). -/
def monthVolumeSpec (b : S3Bucket) (month : ℕ) (storageClass : String) : ℚ :=
  (b.data.map (fun kv =>
    if kv.1 ≤ month then
      ((kv.2.filter (fun e => e.storageClass == storageClass)).map
        S3UploadEntry.getTotalSize).sum
    else 0)).sum

/-- Modelled from the spec: §4.3's transition step, which migrates only the
records "whose current class is not already the rule's target", unlike the
source's filter (which excludes nothing). -/
def S3Bucket.applyTransitionSpec (b : S3Bucket) (month : ℕ) (transition : String) : S3Bucket :=
  if transition = "glacier" then
    { b with data := b.data.map (fun kv =>
        if kv.1 = month then
          (kv.1, kv.2.map (fun e =>
            if e.storageClass = transition then e else e.moveToGlacier))
        else kv) }
  else b

/-!
Concrete month keys and buckets for the scenarios: `24240 = "2020-01"`,
`24241 = "2020-02"`, `24245 = "2020-06"`.
-/

/-- The §8 scenario bucket: one record of 600000 GB, count 1, uploaded in
`"2020-01"`, with the rule `LifecycleRule("glacier", 1)`. -/
def bSection8 : S3Bucket :=
  (emptyBucket.uploadData 24240 (mkS3UploadEntry 600000 1)).addLifecycleRule
    ⟨"glacier", 1⟩

/-- Two uploads more than one month apart (100 GB in `"2020-01"`, 50 GB in
`"2020-06"`) plus a one-month glacier rule. -/
def bTwoMonths : S3Bucket :=
  ((emptyBucket.uploadData 24240 (mkS3UploadEntry 100 1)).uploadData 24245
    (mkS3UploadEntry 50 1)).addLifecycleRule ⟨"glacier", 1⟩

/-- Charges reported for `"2020-01"` when it is processed before the glacier
transition of the `bTwoMonths` record has been applied. -/
def mcFreshJan : MonthlyCharges :=
  { s3_standard_storage_charges := some (23 / 10)
    s3_glacier_storage_charges := 0
    put_request_charges := 1 / 200000
    transition_charges := 0
    s3st_volume := 100
    glacier_volume := 0 }

/-- Charges reported for `"2020-01"` once its record has already been moved
to glacier. -/
def mcArchivedJan : MonthlyCharges :=
  { s3_standard_storage_charges := some 0
    s3_glacier_storage_charges := 2 / 5
    put_request_charges := 1 / 200000
    transition_charges := 0
    s3st_volume := 0
    glacier_volume := 100 }

/-- A two-month cumulative-volume example: 100 GB in month `24240`, 50 GB in
month `24241`, both standard class. -/
def bCumulative : S3Bucket :=
  (emptyBucket.uploadData 24240 (mkS3UploadEntry 100 1)).uploadData 24241
    (mkS3UploadEntry 50 1)

/-- A bucket whose `24238` upload is strictly more than one month before
`24241`: 77 GB in month `24238`, 50 GB in month `24240`, one-month glacier
rule. -/
def bRuleFires : S3Bucket :=
  ((emptyBucket.uploadData 24238 (mkS3UploadEntry 77 1)).uploadData 24240
    (mkS3UploadEntry 50 1)).addLifecycleRule ⟨"glacier", 1⟩

/-!
Helper lemmas for the claim theorems below.
-/

theorem S3Bucket.ext' (a b : S3Bucket) (h1 : a.data = b.data)
    (h2 : a.lifecycleRules = b.lifecycleRules) : a = b := by
  cases a; cases b; simp_all

theorem moveToGlacier_storageClass (e : S3UploadEntry) :
    (e.moveToGlacier).storageClass = "glacier" := rfl

theorem moveToGlacier_idem (e : S3UploadEntry) :
    e.moveToGlacier.moveToGlacier = e.moveToGlacier := rfl

theorem map_moveToGlacier_idem (v : List S3UploadEntry) :
    (v.map S3UploadEntry.moveToGlacier).map S3UploadEntry.moveToGlacier
      = v.map S3UploadEntry.moveToGlacier := by
  rw [List.map_map]
  rfl

theorem hasStd_map_glacier (v : List S3UploadEntry) :
    hasStd (v.map S3UploadEntry.moveToGlacier) = false := by
  simp [hasStd, List.any_map, Function.comp, S3UploadEntry.moveToGlacier]

theorem applyTransition_lifecycleRules (b : S3Bucket) (m : ℕ) (t : String) :
    (b.applyTransition m t).lifecycleRules = b.lifecycleRules := by
  unfold S3Bucket.applyTransition
  split <;> rfl

theorem applyTransition_data_glacier (b : S3Bucket) (m : ℕ) :
    (b.applyTransition m "glacier").data =
      b.data.map (fun kv =>
        if kv.1 = m then (kv.1, kv.2.map S3UploadEntry.moveToGlacier) else kv) := by
  simp [S3Bucket.applyTransition]

theorem applyTransition_other (b : S3Bucket) (m : ℕ) (t : String) (ht : t ≠ "glacier") :
    b.applyTransition m t = b := by
  simp [S3Bucket.applyTransition, ht]

theorem glacierFold_data (ks : List ℕ) (s : S3Bucket) :
    (ks.foldl (fun st k => st.applyTransition k "glacier") s).data =
      s.data.map (fun kv =>
        if kv.1 ∈ ks then (kv.1, kv.2.map S3UploadEntry.moveToGlacier) else kv) := by
  induction ks generalizing s with
  | nil => simp
  | cons k ks ih =>
      rw [List.foldl_cons, ih, applyTransition_data_glacier, List.map_map]
      refine List.map_congr_left (fun kv _ => ?_)
      by_cases h1 : kv.1 = k <;> by_cases h2 : kv.1 ∈ ks <;>
        simp [Function.comp, h1, h2, map_moveToGlacier_idem, moveToGlacier_idem, List.mem_cons]

theorem transFold_lifecycleRules (ks : List ℕ) (s : S3Bucket) (t : String) :
    (ks.foldl (fun st k => st.applyTransition k t) s).lifecycleRules = s.lifecycleRules := by
  induction ks generalizing s with
  | nil => rfl
  | cons k ks ih => rw [List.foldl_cons, ih, applyTransition_lifecycleRules]

theorem transFold_other (ks : List ℕ) (s : S3Bucket) (t : String) (ht : t ≠ "glacier") :
    ks.foldl (fun st k => st.applyTransition k t) s = s := by
  induction ks generalizing s with
  | nil => rfl
  | cons k ks ih => rw [List.foldl_cons, applyTransition_other _ _ _ ht, ih]

theorem hasStd_eq_false_iff (v : List S3UploadEntry) :
    hasStd v = false ↔
      (v.filter (fun e => e.storageClass == "s3standard")).isEmpty = true := by
  simp [hasStd, List.any_eq_false, List.isEmpty_iff, List.filter_eq_nil_iff]

theorem mem_stdKeys_list (d : List (ℕ × List S3UploadEntry)) (k : ℕ) :
    k ∈ (d.filterMap (fun kv =>
        if (kv.2.filter (fun e => e.storageClass == "s3standard")).isEmpty then none
        else some (kv.1, kv.2.filter (fun e => e.storageClass == "s3standard")))).map
        Prod.fst
      ↔ anyStdKey d k = true := by
  induction d with
  | nil => simp [anyStdKey]
  | cons kv d ih =>
      rw [List.filterMap_cons]
      by_cases h : (kv.2.filter (fun e => e.storageClass == "s3standard")).isEmpty = true
      · have hs : hasStd kv.2 = false := (hasStd_eq_false_iff kv.2).mpr h
        rw [if_pos h]
        rw [ih]
        simp [anyStdKey, hs]
      · have hs : hasStd kv.2 = true := by
          cases hhs : hasStd kv.2 with
          | false => exact absurd ((hasStd_eq_false_iff kv.2).mp hhs) h
          | true => rfl
        rw [if_neg h]
        simp only [List.map_cons, List.mem_cons, ih]
        simp only [anyStdKey, List.any_cons, hs, Bool.and_true, Bool.or_eq_true, beq_iff_eq]
        constructor
        · rintro (h1 | h1)
          · exact Or.inl h1.symm
          · exact Or.inr h1
        · rintro (h1 | h1)
          · exact Or.inl h1.symm
          · exact Or.inr h1

theorem mem_stdKeys (b : S3Bucket) (k : ℕ) :
    k ∈ b.s3standardObjects.map Prod.fst ↔ anyStdKey b.data k = true := by
  rw [show b.s3standardObjects = b.data.filterMap (fun kv =>
      if (kv.2.filter (fun e => e.storageClass == "s3standard")).isEmpty then none
      else some (kv.1, kv.2.filter (fun e => e.storageClass == "s3standard"))) from rfl]
  exact mem_stdKeys_list b.data k

theorem anyStdKey_map_select (d : List (ℕ × List S3UploadEntry)) (ks : List ℕ) (k : ℕ) :
    anyStdKey (d.map (fun kv =>
        if kv.1 ∈ ks then (kv.1, kv.2.map S3UploadEntry.moveToGlacier) else kv)) k = true
      ↔ (anyStdKey d k = true ∧ k ∉ ks) := by
  simp only [anyStdKey, List.any_map, List.any_eq_true, Function.comp]
  constructor
  · rintro ⟨kv, hkv, hp⟩
    by_cases hin : kv.1 ∈ ks
    · rw [if_pos hin] at hp
      simp [hasStd_map_glacier] at hp
    · rw [if_neg hin] at hp
      simp only [Bool.and_eq_true, beq_iff_eq] at hp
      obtain ⟨h1, h2⟩ := hp
      refine ⟨⟨kv, hkv, ?_⟩, ?_⟩
      · simp [h1, h2]
      · rw [← h1]; exact hin
  · rintro ⟨⟨kv, hkv, hp⟩, hk⟩
    simp only [Bool.and_eq_true, beq_iff_eq] at hp
    obtain ⟨h1, h2⟩ := hp
    refine ⟨kv, hkv, ?_⟩
    rw [if_neg (by rw [h1]; exact hk)]
    simp [h1, h2]

theorem anyStdKey_map_migrate (rules : List LifecycleRule) (M : ℕ)
    (d : List (ℕ × List S3UploadEntry)) (k : ℕ) :
    anyStdKey (d.map (migrateStep rules M d)) k = true
      ↔ (anyStdKey d k = true ∧ glacierCond rules M k = false) := by
  simp only [anyStdKey, List.any_map, List.any_eq_true, Function.comp]
  constructor
  · rintro ⟨kv, hkv, hp⟩
    by_cases hc : (glacierCond rules M kv.1 && anyStdKey d kv.1) = true
    · rw [show migrateStep rules M d kv = (kv.1, kv.2.map S3UploadEntry.moveToGlacier) from
        by rw [migrateStep, if_pos hc]] at hp
      simp [hasStd_map_glacier] at hp
    · rw [show migrateStep rules M d kv = kv from by rw [migrateStep, if_neg hc]] at hp
      simp only [Bool.and_eq_true, beq_iff_eq] at hp
      obtain ⟨h1, h2⟩ := hp
      have hstd : anyStdKey d k = true := by
        simp only [anyStdKey, List.any_eq_true]
        exact ⟨kv, hkv, by simp [h1, h2]⟩
      refine ⟨?_, ?_⟩
      · simp only [anyStdKey, List.any_eq_true] at hstd
        exact hstd
      · cases hgc : glacierCond rules M k with
        | false => rfl
        | true => exact absurd (by rw [h1, hgc, hstd]; rfl) hc
  · rintro ⟨⟨kv, hkv, hp⟩, hgc⟩
    simp only [Bool.and_eq_true, beq_iff_eq] at hp
    obtain ⟨h1, h2⟩ := hp
    refine ⟨kv, hkv, ?_⟩
    rw [show migrateStep rules M d kv = kv from
      by rw [migrateStep, if_neg (by rw [h1, hgc]; simp)]]
    simp [h1, h2]

theorem applyRulesAux_cons (M : ℕ) (r : LifecycleRule) (rest : List LifecycleRule)
    (s : S3Bucket) :
    applyRulesAux M (r :: rest) s =
      applyRulesAux M rest
        (((s.s3standardObjects.map Prod.fst).filter
            (fun k => decide (k < substrMonths M r.period))).foldl
          (fun st2 k => st2.applyTransition k r.transition) s) := rfl

theorem applyRulesAux_lifecycleRules (M : ℕ) (rules : List LifecycleRule) (s : S3Bucket) :
    (applyRulesAux M rules s).lifecycleRules = s.lifecycleRules := by
  induction rules generalizing s with
  | nil => rfl
  | cons r rest ih => rw [applyRulesAux_cons, ih, transFold_lifecycleRules]

theorem migrate_pointwise (rest : List LifecycleRule) (r : LifecycleRule) (M : ℕ)
    (d : List (ℕ × List S3UploadEntry)) (ks : List ℕ) (c : ℕ)
    (hglac : (r.transition == "glacier") = true) (hcc : substrMonths M r.period = c)
    (hks : ∀ k, k ∈ ks ↔ (anyStdKey d k = true ∧ k < c)) (kv : ℕ × List S3UploadEntry) :
    migrateStep rest M
      (d.map (fun kv0 =>
        if kv0.1 ∈ ks then (kv0.1, kv0.2.map S3UploadEntry.moveToGlacier) else kv0))
      (if kv.1 ∈ ks then (kv.1, kv.2.map S3UploadEntry.moveToGlacier) else kv)
      = migrateStep (r :: rest) M d kv := by
  by_cases hin : kv.1 ∈ ks
  · obtain ⟨hstd, hlt⟩ := (hks kv.1).mp hin
    rw [if_pos hin]
    have hno : anyStdKey (d.map (fun kv0 =>
        if kv0.1 ∈ ks then (kv0.1, kv0.2.map S3UploadEntry.moveToGlacier) else kv0))
        kv.1 = false := by
      cases hx : anyStdKey (d.map (fun kv0 =>
          if kv0.1 ∈ ks then (kv0.1, kv0.2.map S3UploadEntry.moveToGlacier) else kv0)) kv.1 with
      | false => rfl
      | true => exact absurd hin ((anyStdKey_map_select d ks kv.1).mp hx).2
    have hgc : glacierCond (r :: rest) M kv.1 = true := by
      simp only [glacierCond, List.any_cons]
      rw [hglac, hcc]
      simp [hlt]
    simp only [migrateStep, hno, hgc, hstd, Bool.and_false, Bool.and_true]
    simp
  · rw [if_neg hin]
    have hsel := anyStdKey_map_select d ks kv.1
    by_cases hstd : anyStdKey d kv.1 = true
    · have hnlt : ¬ kv.1 < c := fun hlt => hin ((hks kv.1).mpr ⟨hstd, hlt⟩)
      have hd' : anyStdKey (d.map (fun kv0 =>
          if kv0.1 ∈ ks then (kv0.1, kv0.2.map S3UploadEntry.moveToGlacier) else kv0))
          kv.1 = true := hsel.mpr ⟨hstd, hin⟩
      have hgceq : glacierCond (r :: rest) M kv.1 = glacierCond rest M kv.1 := by
        simp only [glacierCond, List.any_cons]
        rw [hglac, hcc]
        simp [hnlt]
      rw [show migrateStep rest M (d.map (fun kv0 =>
          if kv0.1 ∈ ks then (kv0.1, kv0.2.map S3UploadEntry.moveToGlacier) else kv0)) kv
          = migrateStep (r :: rest) M d kv from by
        simp only [migrateStep, hd', hstd, hgceq]]
    · have hstd' : anyStdKey d kv.1 = false := by
        cases hx : anyStdKey d kv.1 with
        | true => exact absurd hx hstd
        | false => rfl
      have hd' : anyStdKey (d.map (fun kv0 =>
          if kv0.1 ∈ ks then (kv0.1, kv0.2.map S3UploadEntry.moveToGlacier) else kv0))
          kv.1 = false := by
        cases hx : anyStdKey (d.map (fun kv0 =>
            if kv0.1 ∈ ks then (kv0.1, kv0.2.map S3UploadEntry.moveToGlacier) else kv0)) kv.1 with
        | true => exact absurd (hsel.mp hx).1 hstd
        | false => rfl
      simp only [migrateStep, hd', hstd', Bool.and_false]

theorem applyRulesAux_data (M : ℕ) (rules : List LifecycleRule) (s : S3Bucket) :
    (applyRulesAux M rules s).data = s.data.map (migrateStep rules M s.data) := by
  induction rules generalizing s with
  | nil =>
      rw [show applyRulesAux M [] s = s from rfl,
        show migrateStep [] M s.data = fun kv => kv from
          funext (fun kv => by simp [migrateStep, glacierCond]),
        List.map_id']
  | cons r rest ih =>
      rw [applyRulesAux_cons]
      by_cases hglac : r.transition = "glacier"
      · rw [show (fun (st2 : S3Bucket) (k : ℕ) => st2.applyTransition k r.transition)
            = (fun (st2 : S3Bucket) (k : ℕ) => st2.applyTransition k "glacier") from
          by rw [hglac]]
        rw [ih, glacierFold_data, List.map_map]
        refine List.map_congr_left (fun kv _ => ?_)
        have hks : ∀ k, k ∈ (s.s3standardObjects.map Prod.fst).filter
            (fun k => decide (k < substrMonths M r.period)) ↔
            (anyStdKey s.data k = true ∧ k < substrMonths M r.period) := by
          intro k
          rw [List.mem_filter, mem_stdKeys]
          simp
        exact migrate_pointwise rest r M s.data _ (substrMonths M r.period)
          (by rw [hglac]; rfl) rfl hks kv
      · rw [transFold_other _ _ _ hglac, ih]
        refine List.map_congr_left (fun kv _ => ?_)
        have hb : (r.transition == "glacier") = false := by simp [hglac]
        have hgceq : glacierCond (r :: rest) M kv.1 = glacierCond rest M kv.1 := by
          simp [glacierCond, List.any_cons, hb]
        simp only [migrateStep, hgceq]

theorem applyLifecycleRules_data (b : S3Bucket) (M : ℕ) :
    (b.applyLifecycleRules M).data = b.data.map (migrateStep b.lifecycleRules M b.data) :=
  applyRulesAux_data M b.lifecycleRules b

theorem applyLifecycleRules_lifecycleRules (b : S3Bucket) (M : ℕ) :
    (b.applyLifecycleRules M).lifecycleRules = b.lifecycleRules :=
  applyRulesAux_lifecycleRules M b.lifecycleRules b

theorem migrateStep_fst (rules : List LifecycleRule) (M : ℕ)
    (d : List (ℕ × List S3UploadEntry)) (kv : ℕ × List S3UploadEntry) :
    (migrateStep rules M d kv).1 = kv.1 := by
  rw [migrateStep]
  split <;> rfl

theorem applyLifecycleRules_keys (b : S3Bucket) (M : ℕ) :
    (b.applyLifecycleRules M).data.map Prod.fst = b.data.map Prod.fst := by
  rw [applyLifecycleRules_data, List.map_map]
  exact List.map_congr_left (fun kv _ => migrateStep_fst b.lifecycleRules M b.data kv)

theorem migrateStep_fixpoint (rules : List LifecycleRule) (M : ℕ)
    (d : List (ℕ × List S3UploadEntry)) (kv : ℕ × List S3UploadEntry) :
    migrateStep rules M (d.map (migrateStep rules M d)) kv = kv := by
  cases hgc : glacierCond rules M kv.1 with
  | false => simp [migrateStep, hgc]
  | true =>
      have hno : anyStdKey (d.map (migrateStep rules M d)) kv.1 = false := by
        cases hx : anyStdKey (d.map (migrateStep rules M d)) kv.1 with
        | false => rfl
        | true =>
            have h2 := (anyStdKey_map_migrate rules M d kv.1).mp hx
            rw [h2.2] at hgc
            simp at hgc
      simp [migrateStep, hgc, hno]

theorem forall₂_entryMono_trans {v1 v2 v3 : List S3UploadEntry}
    (h1 : List.Forall₂ entryMono v1 v2) (h2 : List.Forall₂ entryMono v2 v3) :
    List.Forall₂ entryMono v1 v3 := by
  induction h1 generalizing v3 with
  | nil => cases h2; exact .nil
  | cons ha hl ih =>
      cases h2 with
      | cons hb hl2 => exact .cons (fun hg => hb (ha hg)) (ih hl2)

theorem dataMono_refl (d : List (ℕ × List S3UploadEntry)) : dataMono d d :=
  List.forall₂_same.mpr (fun _ _ =>
    ⟨rfl, List.forall₂_same.mpr (fun _ _ => fun h => h)⟩)

theorem dataMono_trans {d1 d2 d3 : List (ℕ × List S3UploadEntry)}
    (h1 : dataMono d1 d2) (h2 : dataMono d2 d3) : dataMono d1 d3 := by
  rw [dataMono] at h1 h2 ⊢
  induction h1 generalizing d3 with
  | nil => cases h2; exact .nil
  | cons ha hl ih =>
      cases h2 with
      | cons hb hl2 =>
          exact .cons ⟨ha.1.trans hb.1, forall₂_entryMono_trans ha.2 hb.2⟩ (ih hl2)

theorem forall₂_entryMono_refl (v : List S3UploadEntry) : List.Forall₂ entryMono v v :=
  List.forall₂_same.mpr (fun _ _ => fun h => h)

theorem forall₂_entryMono_map_glacier (v : List S3UploadEntry) :
    List.Forall₂ entryMono v (v.map S3UploadEntry.moveToGlacier) :=
  List.forall₂_map_right_iff.mpr (List.forall₂_same.mpr (fun _ _ => fun _ => rfl))

theorem dataMono_map (d : List (ℕ × List S3UploadEntry))
    (f : ℕ × List S3UploadEntry → ℕ × List S3UploadEntry)
    (hf : ∀ kv, kv.1 = (f kv).1 ∧ List.Forall₂ entryMono kv.2 (f kv).2) :
    dataMono d (d.map f) := by
  rw [dataMono, List.forall₂_map_right_iff]
  exact List.forall₂_same.mpr (fun kv _ => hf kv)

theorem dataMono_applyTransition (b : S3Bucket) (m : ℕ) (t : String) :
    dataMono b.data (b.applyTransition m t).data := by
  by_cases ht : t = "glacier"
  · subst ht
    rw [applyTransition_data_glacier]
    apply dataMono_map
    intro kv
    by_cases h : kv.1 = m
    · rw [if_pos h]
      exact ⟨rfl, forall₂_entryMono_map_glacier kv.2⟩
    · rw [if_neg h]
      exact ⟨rfl, forall₂_entryMono_refl kv.2⟩
  · rw [applyTransition_other _ _ _ ht]
    exact dataMono_refl _

theorem dataMono_transFold (ks : List ℕ) (s : S3Bucket) (t : String) :
    dataMono s.data ((ks.foldl (fun st k => st.applyTransition k t) s)).data := by
  induction ks generalizing s with
  | nil => exact dataMono_refl _
  | cons k ks ih =>
      rw [List.foldl_cons]
      exact dataMono_trans (dataMono_applyTransition s k t) (ih _)

theorem dataMono_applyRulesAux (M : ℕ) (rules : List LifecycleRule) (s : S3Bucket) :
    dataMono s.data (applyRulesAux M rules s).data := by
  induction rules generalizing s with
  | nil => exact dataMono_refl _
  | cons r rest ih =>
      rw [applyRulesAux_cons]
      exact dataMono_trans (dataMono_transFold _ s r.transition) (ih _)

theorem dataMono_applyOp (b : S3Bucket) (op : BucketOp) :
    dataMono b.data (applyOp b op).data := by
  cases op with
  | applyRules m => exact dataMono_applyRulesAux m b.lifecycleRules b
  | transitionOp m t => exact dataMono_applyTransition b m t
  | addRule r => exact dataMono_refl _

theorem dataMono_runOps (b : S3Bucket) (ops : List BucketOp) :
    dataMono b.data (runOps b ops).data := by
  induction ops generalizing b with
  | nil => exact dataMono_refl _
  | cons op ops ih =>
      rw [runOps, List.foldl_cons]
      exact dataMono_trans (dataMono_applyOp b op) (ih _)

theorem applyLifecycleRules_noRules (b : S3Bucket) (M : ℕ) (h : b.lifecycleRules = []) :
    b.applyLifecycleRules M = b := by
  rw [S3Bucket.applyLifecycleRules, h]
  rfl

theorem grkAux (b : S3Bucket) (h : b.lifecycleRules = []) (keys : List ℕ) :
    ∀ acc : List (ℕ × MonthlyCharges),
      keys.foldl (fun acc0 m =>
        let st := acc0.1.applyLifecycleRules m
        (st, acc0.2 ++ [(m, st.getMonthlyCharges m)])) (b, acc)
      = (b, acc ++ keys.map (fun k => (k, b.getMonthlyCharges k))) := by
  induction keys with
  | nil =>
      intro acc
      simp
  | cons k keys ih =>
      intro acc
      rw [List.foldl_cons]
      have hb : b.applyLifecycleRules k = b := applyLifecycleRules_noRules b k h
      show List.foldl _ ((b.applyLifecycleRules k),
        acc ++ [(k, (b.applyLifecycleRules k).getMonthlyCharges k)]) keys = _
      rw [hb, ih]
      simp

theorem generateReportKeys_noRules (b : S3Bucket) (h : b.lifecycleRules = []) (keys : List ℕ) :
    generateReportKeys b keys = (b, keys.map (fun k => (k, b.getMonthlyCharges k))) := by
  rw [generateReportKeys, grkAux b h keys]
  simp

theorem lookup_keyMap (keys : List ℕ) (f : ℕ → MonthlyCharges) (k : ℕ) :
    (keys.map (fun k0 => (k0, f k0))).lookup k = if k ∈ keys then some (f k) else none := by
  induction keys with
  | nil => simp
  | cons k0 keys ih =>
      rw [List.map_cons, List.lookup_cons]
      by_cases h : k = k0
      · subst h
        simp
      · have hb : (k == k0) = false := by simp [h]
        rw [hb]
        simp [ih, List.mem_cons, h]

theorem moveToGlacier_of_glacier (e : S3UploadEntry) (h : e.storageClass = "glacier") :
    e.moveToGlacier = e := by
  cases e
  simp only [S3UploadEntry.moveToGlacier] at *
  simp_all

theorem volume_pipeline (d : List (ℕ × List S3UploadEntry)) (m : ℕ) (c : String) :
    ((((d.filter (fun kv => decide (kv.1 ≤ m))).map Prod.snd).flatten.filter
        (fun e => e.storageClass == c)).map S3UploadEntry.getTotalSize).sum
      = (d.map (fun kv =>
          if kv.1 ≤ m then
            ((kv.2.filter (fun e => e.storageClass == c)).map S3UploadEntry.getTotalSize).sum
          else 0)).sum := by
  induction d with
  | nil => simp
  | cons kv d ih =>
      rw [List.filter_cons, List.map_cons, List.sum_cons]
      by_cases h : kv.1 ≤ m
      · rw [if_pos (by simpa using h), if_pos h]
        simp only [List.map_cons, List.flatten_cons, List.filter_append, List.map_append,
          List.sum_append, ih]
      · rw [if_neg (by simpa using h), if_neg h]
        rw [ih]
        simp

/-!
Claim theorems.
-/

/-- Claim C3: the standard-class tiered rate satisfies `rate(v) = v * 0.023`
on `[0, 50000)` (in particular `rate(0) = 0` and no fault on that interval),
and `rate(50000) = 1150.0`, `rate(500000) = 11050.0`, `rate(600000) = 13150.0`:
the code's tier boundaries agree with the spec's piecewise definition. -/
theorem claimC3_tieredRate :
    (∀ v : ℚ, 0 ≤ v → v < 50000 →
        getS3StandardStorageCharges v = some (v * (0.023 : ℚ)))
    ∧ getS3StandardStorageCharges 50000 = some 1150
    ∧ getS3StandardStorageCharges 500000 = some 11050
    ∧ getS3StandardStorageCharges 600000 = some 13150 := by
  refine ⟨?_, ?_, ?_, ?_⟩
  · intro v h0 hlt
    rw [getS3StandardStorageCharges, if_neg (not_le.mpr (by linarith)),
      if_neg (not_le.mpr (by linarith)), if_pos h0, s3_standard_first_50TB]
  · norm_num [getS3StandardStorageCharges, s3_standard_first_50TB, s3_standard_next_450TB]
  · norm_num [getS3StandardStorageCharges, s3_standard_first_50TB, s3_standard_next_450TB,
      s3_standard_over_500TB]
  · norm_num [getS3StandardStorageCharges, s3_standard_first_50TB, s3_standard_next_450TB,
      s3_standard_over_500TB]

/-- Witness for claim C3: the first conjunct instantiated at `v = 3`. -/
theorem claimC3_witness :
    (0 : ℚ) ≤ 3 ∧ (3 : ℚ) < 50000 ∧
      getS3StandardStorageCharges 3 = some (3 * (0.023 : ℚ)) :=
  ⟨by norm_num, by norm_num, claimC3_tieredRate.1 3 (by norm_num) (by norm_num)⟩

/-- Claim C4: `monthVolume(M, C)` is the sum of `totalSize()` over every
record currently of class `C` stored under a month-key `≤ M`
(cumulative-to-date): the source's pipeline equals the spec's formulation,
and on the two-month example the volumes are 150 and 100. -/
theorem claimC4_monthVolume :
    (∀ (b : S3Bucket) (m : ℕ) (c : String), b.getMonthVolume m c = monthVolumeSpec b m c)
    ∧ bCumulative.getMonthVolume 24241 "s3standard" = 150
    ∧ bCumulative.getMonthVolume 24240 "s3standard" = 100 := by
  refine ⟨fun b m c => volume_pipeline b.data m c, ?_, ?_⟩
  · simp +decide [bCumulative, emptyBucket, S3Bucket.uploadData, S3Bucket.getMonthVolume,
      mkS3UploadEntry, S3UploadEntry.getTotalSize]
    norm_num
  · simp +decide [bCumulative, emptyBucket, S3Bucket.uploadData, S3Bucket.getMonthVolume,
      mkS3UploadEntry, S3UploadEntry.getTotalSize]

/-- Claim C5: `applyLifecycleRules` is idempotent — for every bucket state and
month, applying it twice yields exactly the state of applying it once. -/
theorem claimC5_idempotent (b : S3Bucket) (M : ℕ) :
    (b.applyLifecycleRules M).applyLifecycleRules M = b.applyLifecycleRules M := by
  apply S3Bucket.ext'
  · rw [applyLifecycleRules_data (b.applyLifecycleRules M) M,
      applyLifecycleRules_lifecycleRules, applyLifecycleRules_data b M]
    exact (List.map_congr_left
        (fun kv _ => migrateStep_fixpoint b.lifecycleRules M b.data kv)).trans
      (List.map_id' _)
  · rw [applyLifecycleRules_lifecycleRules, applyLifecycleRules_lifecycleRules]

/-- Claim C6: classification transitions are monotonic — under any sequence of
`applyLifecycleRules`, `apply_transition` and `add_lifecycle_rule` calls, with
any rules and months, every record that is archived (glacier) stays archived,
positionally, in the resulting state. -/
theorem claimC6_monotonic (b : S3Bucket) (ops : List BucketOp) :
    dataMono b.data (runOps b ops).data :=
  dataMono_runOps b ops

/-- Claim C7: missing data degrades to zero — `monthRequestCount` of an absent
month is 0, `monthVolume` over absent months is 0, and `totals()` of a bucket
with no uploads returns all-zero charges without faulting. -/
theorem claimC7_missingData :
    (∀ (b : S3Bucket) (m : ℕ), b.data.lookup m = none → b.getMonthRequests m = 0)
    ∧ (∀ (b : S3Bucket) (m : ℕ) (c : String),
        b.data.filter (fun kv => decide (kv.1 ≤ m)) = [] → b.getMonthVolume m c = 0)
    ∧ emptyBucket.getTotals = some ⟨0, 0, 0⟩ := by
  refine ⟨?_, ?_, ?_⟩
  · intro b m h
    rw [S3Bucket.getMonthRequests, h]
  · intro b m c h
    rw [S3Bucket.getMonthVolume, h]
    simp
  · rfl

/-- Witness for claim C7: a month with no uploads has zero requests and zero
volume. -/
theorem claimC7_witness :
    emptyBucket.data.lookup 7 = none ∧ emptyBucket.getMonthRequests 7 = 0
    ∧ bCumulative.data.filter (fun kv => decide (kv.1 ≤ 3)) = []
    ∧ bCumulative.getMonthVolume 3 "s3standard" = 0 :=
  ⟨rfl, claimC7_missingData.1 emptyBucket 7 rfl, by decide,
    claimC7_missingData.2.1 bCumulative 3 "s3standard" (by decide)⟩

/-- Claim C8: unrecognized transition targets are ignored at both steps — the
transition charge is `count/1000 * 0.05` exactly when the mapping holds the
glacier target, `0` when it does not (so non-glacier targets contribute no
charge), and `apply_transition` with a non-glacier target leaves the bucket
unchanged. -/
theorem claimC8_unrecognizedTargets :
    (∀ (ts : List (String × ℕ)) (n : ℕ), ts.lookup "glacier" = some n →
        getTransitionCharges ts = (n : ℚ) / 1000 * (0.05 : ℚ))
    ∧ (∀ ts : List (String × ℕ), ts.lookup "glacier" = none → getTransitionCharges ts = 0)
    ∧ (∀ (b : S3Bucket) (m : ℕ) (t : String), t ≠ "glacier" → b.applyTransition m t = b) := by
  refine ⟨?_, ?_, ?_⟩
  · intro ts n h
    rw [getTransitionCharges, h, glacier_transition_1000_requests]
  · intro ts h
    rw [getTransitionCharges, h]
  · intro b m t ht
    exact applyTransition_other b m t ht

/-- Witness for claim C8: a glacier mapping of 2000 objects, a glacier-free
mapping, and a transition to an unknown target. -/
theorem claimC8_witness :
    ([("glacier", 2000)] : List (String × ℕ)).lookup "glacier" = some 2000
    ∧ getTransitionCharges [("glacier", 2000)] = (2000 : ℚ) / 1000 * (0.05 : ℚ)
    ∧ ([("deep", 7)] : List (String × ℕ)).lookup "glacier" = none
    ∧ getTransitionCharges [("deep", 7)] = 0
    ∧ emptyBucket.applyTransition 3 "expire" = emptyBucket :=
  ⟨rfl, claimC8_unrecognizedTargets.1 [("glacier", 2000)] 2000 rfl, rfl,
    claimC8_unrecognizedTargets.2.1 [("deep", 7)] rfl,
    claimC8_unrecognizedTargets.2.2 emptyBucket 3 "expire" (by decide)⟩

/-- Claim C10: `apply_transition(month, 'glacier')` on a month present in the
bucket sets every record of that month to glacier unconditionally (its filter
compares the bound method to the string and excludes nothing), and the
resulting state is identical to the spec's version that skips records already
in the target class. -/
theorem claimC10_applyTransition :
    (∀ (b : S3Bucket) (m : ℕ), (b.data.map Prod.fst).contains m = true →
        ∀ kv ∈ (b.applyTransition m "glacier").data, kv.1 = m →
        ∀ e ∈ kv.2, e.storageClass = "glacier")
    ∧ (∀ (b : S3Bucket) (m : ℕ) (t : String),
        b.applyTransitionSpec m t = b.applyTransition m t) := by
  constructor
  · intro b m _ kv hkv hk e he
    rw [applyTransition_data_glacier] at hkv
    obtain ⟨kv0, hkv0, rfl⟩ := List.mem_map.mp hkv
    by_cases h : kv0.1 = m
    · rw [if_pos h] at he
      obtain ⟨e0, he0, rfl⟩ := List.mem_map.mp he
      rfl
    · rw [if_neg h] at hk
      exact absurd hk h
  · intro b m t
    by_cases ht : t = "glacier"
    · rw [S3Bucket.applyTransitionSpec, S3Bucket.applyTransition, if_pos ht, if_pos ht]
      refine S3Bucket.ext' _ _ ?_ rfl
      refine List.map_congr_left (fun kv _ => ?_)
      by_cases h : kv.1 = m
      · rw [if_pos h, if_pos h]
        have hinner : kv.2.map (fun e =>
            if e.storageClass = t then e else e.moveToGlacier)
            = kv.2.map S3UploadEntry.moveToGlacier := by
          refine List.map_congr_left (fun e _ => ?_)
          by_cases hsc : e.storageClass = t
          · rw [if_pos hsc]
            exact (moveToGlacier_of_glacier e (ht ▸ hsc)).symm
          · rw [if_neg hsc]
        rw [hinner]
      · rw [if_neg h, if_neg h]
    · rw [applyTransition_other _ _ _ ht, S3Bucket.applyTransitionSpec, if_neg ht]

/-- Witness for claim C10: the month `24240` is present in `bCumulative`, and
after `apply_transition(24240, 'glacier')` its record is glacier-class. -/
theorem claimC10_witness :
    ((bCumulative.data.map Prod.fst).contains 24240 = true)
    ∧ (⟨1, 100, "glacier"⟩ : S3UploadEntry).storageClass = "glacier" :=
  ⟨by decide, claimC10_applyTransition.1 bCumulative 24240 (by decide)
    (24240, [⟨1, 100, "glacier"⟩]) (by decide) rfl ⟨1, 100, "glacier"⟩ (by decide)⟩

/-- Claim C1 (amended): after `applyLifecycleRules(M)`, every record of a
well-classed bucket whose upload month is STRICTLY MORE than `periodMonths`
calendar months before `M` (upload month `< M - periodMonths`) is in the
glacier target class of any such rule held by the bucket; a record uploaded
exactly `periodMonths` months before `M` is not migrated, so in the §8
scenario the record is still standard after the `"2020-02"` evaluation:
`monthVolume('2020-02','archived') = 0` and
`monthVolume('2020-02','standard') = 600000`. -/
theorem claimC1_cutoffStrict :
    (∀ (b : S3Bucket) (r : LifecycleRule) (M : ℕ),
        r ∈ b.lifecycleRules → r.transition = "glacier" → wfClasses b →
        ∀ kv ∈ (b.applyLifecycleRules M).data, kv.1 < substrMonths M r.period →
        ∀ e ∈ kv.2, e.storageClass = "glacier")
    ∧ (bSection8.applyLifecycleRules 24241).getMonthVolume 24241 "glacier" = 0
    ∧ (bSection8.applyLifecycleRules 24241).getMonthVolume 24241 "s3standard" = 600000 := by
  refine ⟨?_, ?_, ?_⟩
  · intro b r M hr ht hwf kv hkv hlt e he
    rw [applyLifecycleRules_data] at hkv
    obtain ⟨kv0, hkv0, rfl⟩ := List.mem_map.mp hkv
    rw [migrateStep_fst] at hlt
    have hgc : glacierCond b.lifecycleRules M kv0.1 = true := by
      simp only [glacierCond, List.any_eq_true]
      exact ⟨r, hr, by rw [ht]; simp [hlt]⟩
    cases hstd : anyStdKey b.data kv0.1 with
    | true =>
        rw [show migrateStep b.lifecycleRules M b.data kv0
            = (kv0.1, kv0.2.map S3UploadEntry.moveToGlacier) from
          by rw [migrateStep, if_pos (by rw [hgc, hstd]; rfl)]] at he
        obtain ⟨e0, he0, rfl⟩ := List.mem_map.mp he
        rfl
    | false =>
        rw [show migrateStep b.lifecycleRules M b.data kv0 = kv0 from
          by rw [migrateStep, if_neg (by rw [hstd]; simp)]] at he
        have hhs : hasStd kv0.2 = false := by
          cases hh : hasStd kv0.2 with
          | false => rfl
          | true =>
              have hak : anyStdKey b.data kv0.1 = true := by
                simp only [anyStdKey, List.any_eq_true]
                exact ⟨kv0, hkv0, by simp [hh]⟩
              rw [hak] at hstd
              exact Bool.noConfusion hstd
        cases hwf kv0 hkv0 e he with
        | inl hstd2 =>
            have hhs2 : hasStd kv0.2 = true := by
              simp only [hasStd, List.any_eq_true]
              exact ⟨e, he, by simp [hstd2]⟩
            rw [hhs2] at hhs
            exact Bool.noConfusion hhs
        | inr hg => exact hg
  · simp +decide [bSection8, emptyBucket, S3Bucket.uploadData, S3Bucket.addLifecycleRule,
      S3Bucket.applyLifecycleRules, applyRulesAux, S3Bucket.s3standardObjects,
      S3Bucket.applyTransition, S3Bucket.getMonthVolume, mkS3UploadEntry,
      S3UploadEntry.getTotalSize, substrMonths]
  · simp +decide [bSection8, emptyBucket, S3Bucket.uploadData, S3Bucket.addLifecycleRule,
      S3Bucket.applyLifecycleRules, applyRulesAux, S3Bucket.s3standardObjects,
      S3Bucket.applyTransition, S3Bucket.getMonthVolume, mkS3UploadEntry,
      S3UploadEntry.getTotalSize, substrMonths]

/-- Witness for claim C1: in `bRuleFires`, the month-`24238` record (strictly
more than 1 month before `24241`) is glacier after the `24241` evaluation. -/
theorem claimC1_witness :
    (⟨"glacier", 1⟩ : LifecycleRule) ∈ bRuleFires.lifecycleRules
    ∧ (⟨1, 77, "glacier"⟩ : S3UploadEntry).storageClass = "glacier" :=
  ⟨by decide, claimC1_cutoffStrict.1 bRuleFires ⟨"glacier", 1⟩ 24241 (by decide) rfl
    (by unfold wfClasses; decide) (24238, [⟨1, 77, "glacier"⟩]) (by decide) (by decide)
    ⟨1, 77, "glacier"⟩ (by decide)⟩

/-- Counterexample for claim C1 as stated: in the §8 scenario the record is
uploaded exactly `periodMonths` (= 1) months before the `"2020-02"` evaluation
month, yet after `applyLifecycleRules("2020-02")` it is NOT archived — its
class is still `"s3standard"` and the claimed volumes
(`archived = 600000`, `standard = 0`) are both wrong. -/
theorem claimC1_counterexample :
    (bSection8.applyLifecycleRules 24241).data = [(24240, [⟨1, 600000, "s3standard"⟩])]
    ∧ ¬((bSection8.applyLifecycleRules 24241).getMonthVolume 24241 "glacier" = 600000
        ∧ (bSection8.applyLifecycleRules 24241).getMonthVolume 24241 "s3standard" = 0) := by
  constructor
  · decide
  · intro h
    have hg : (bSection8.applyLifecycleRules 24241).getMonthVolume 24241 "glacier" = 0 := by
      simp +decide [bSection8, emptyBucket, S3Bucket.uploadData, S3Bucket.addLifecycleRule,
        S3Bucket.applyLifecycleRules, applyRulesAux, S3Bucket.s3standardObjects,
        S3Bucket.applyTransition, S3Bucket.getMonthVolume, mkS3UploadEntry,
        S3UploadEntry.getTotalSize, substrMonths]
    rw [hg] at h
    norm_num at h

/-- Claim C2 (amended): the report is independent of the order in which the
months are processed only when the bucket holds no lifecycle rules — then any
permutation of the keys yields the same month-to-charges mapping.  (With
rules, report generation mutates classification state, so order matters; see
the counterexample.) -/
theorem claimC2_orderIndependentNoRules (b : S3Bucket) (keys₁ keys₂ : List ℕ) (k : ℕ)
    (hrules : b.lifecycleRules = []) (hperm : keys₁.Perm keys₂) :
    ((generateReportKeys b keys₁).2).lookup k
      = ((generateReportKeys b keys₂).2).lookup k := by
  rw [generateReportKeys_noRules b hrules keys₁, generateReportKeys_noRules b hrules keys₂]
  show (keys₁.map fun k0 => (k0, b.getMonthlyCharges k0)).lookup k
    = (keys₂.map fun k0 => (k0, b.getMonthlyCharges k0)).lookup k
  rw [lookup_keyMap, lookup_keyMap]
  by_cases hk : k ∈ keys₂
  · rw [if_pos (hperm.mem_iff.mpr hk), if_pos hk]
  · rw [if_neg (fun hx => hk (hperm.mem_iff.mp hx)), if_neg hk]

/-- Witness for claim C2: a rule-free bucket reported in two key orders. -/
theorem claimC2_witness :
    bCumulative.lifecycleRules = []
    ∧ List.Perm [24240, 24241] [24241, 24240]
    ∧ ((generateReportKeys bCumulative [24240, 24241]).2).lookup 24240
        = ((generateReportKeys bCumulative [24241, 24240]).2).lookup 24240 :=
  ⟨rfl, by decide, claimC2_orderIndependentNoRules bCumulative [24240, 24241]
    [24241, 24240] 24240 rfl (by decide)⟩

/-- Counterexample for claim C2 as stated: `bTwoMonths` has upload months
`[24240, 24245]`; processing them in that order versus the reverse permutation
yields different charges for month `24240` (the glacier rule fires before
`24240` is reported in the reversed order). -/
theorem claimC2_counterexample :
    bTwoMonths.data.map Prod.fst = [24240, 24245]
    ∧ List.Perm [24240, 24245] [24245, 24240]
    ∧ ((generateReportKeys bTwoMonths [24240, 24245]).2).lookup 24240
        ≠ ((generateReportKeys bTwoMonths [24245, 24240]).2).lookup 24240 := by
  refine ⟨by decide, by decide, ?_⟩
  have h1 : ((generateReportKeys bTwoMonths [24240, 24245]).2).lookup 24240
      = some mcFreshJan := by
    simp +decide [bTwoMonths, emptyBucket, S3Bucket.uploadData, S3Bucket.addLifecycleRule,
      generateReportKeys, S3Bucket.applyLifecycleRules, applyRulesAux,
      S3Bucket.s3standardObjects, S3Bucket.applyTransition, S3Bucket.getMonthlyCharges,
      S3Bucket.getMonthVolume, S3Bucket.getMonthRequests, S3Bucket.getMonthTransitions,
      dictInsert, getS3StandardStorageCharges, getGlacierStorageCharges, getRequestCharges,
      getTransitionCharges, S3UploadEntry.getTotalSize, S3UploadEntry.getNumOfObjects,
      S3UploadEntry.moveToGlacier, mkS3UploadEntry, substrMonths, s3_standard_first_50TB, s3_standard_next_450TB,
      s3_standard_over_500TB, glacier_storage_rate, s3_standard_1000_PUT_requests,
      glacier_transition_1000_requests, List.lookup, mcFreshJan]
    norm_num
  have h2 : ((generateReportKeys bTwoMonths [24245, 24240]).2).lookup 24240
      = some mcArchivedJan := by
    simp +decide [bTwoMonths, emptyBucket, S3Bucket.uploadData, S3Bucket.addLifecycleRule,
      generateReportKeys, S3Bucket.applyLifecycleRules, applyRulesAux,
      S3Bucket.s3standardObjects, S3Bucket.applyTransition, S3Bucket.getMonthlyCharges,
      S3Bucket.getMonthVolume, S3Bucket.getMonthRequests, S3Bucket.getMonthTransitions,
      dictInsert, getS3StandardStorageCharges, getGlacierStorageCharges, getRequestCharges,
      getTransitionCharges, S3UploadEntry.getTotalSize, S3UploadEntry.getNumOfObjects,
      S3UploadEntry.moveToGlacier, mkS3UploadEntry, substrMonths, s3_standard_first_50TB, s3_standard_next_450TB,
      s3_standard_over_500TB, glacier_storage_rate, s3_standard_1000_PUT_requests,
      glacier_transition_1000_requests, List.lookup, mcArchivedJan]
    norm_num
  rw [h1, h2]
  norm_num [mcFreshJan, mcArchivedJan, MonthlyCharges.mk.injEq]

/-- Claim C9: `generateReport` is not idempotent as an observation — on
`bTwoMonths` the first call reports month `24240` with a standard-storage
charge of 23/10 and no archived-storage charge, while the second call (on the
state mutated by the first) reports a lower standard charge (0) and a higher
archived charge (2/5), so the two reports differ. -/
theorem claimC9_reportNotIdempotent :
    ((bTwoMonths.generateReport).2).lookup 24240 = some mcFreshJan
    ∧ (((bTwoMonths.generateReport).1.generateReport).2).lookup 24240 = some mcArchivedJan
    ∧ mcArchivedJan.s3_standard_storage_charges = some 0
    ∧ mcFreshJan.s3_standard_storage_charges = some (23 / 10)
    ∧ (0 : ℚ) < 23 / 10
    ∧ mcFreshJan.s3_glacier_storage_charges = 0
    ∧ mcArchivedJan.s3_glacier_storage_charges = 2 / 5
    ∧ (0 : ℚ) < 2 / 5
    ∧ (bTwoMonths.generateReport).2 ≠ ((bTwoMonths.generateReport).1.generateReport).2 := by
  have h1 : ((bTwoMonths.generateReport).2).lookup 24240 = some mcFreshJan := by
    simp +decide [bTwoMonths, emptyBucket, S3Bucket.uploadData, S3Bucket.addLifecycleRule,
      S3Bucket.generateReport, generateReportKeys, S3Bucket.applyLifecycleRules,
      applyRulesAux, S3Bucket.s3standardObjects, S3Bucket.applyTransition,
      S3Bucket.getMonthlyCharges, S3Bucket.getMonthVolume, S3Bucket.getMonthRequests,
      S3Bucket.getMonthTransitions, dictInsert, getS3StandardStorageCharges,
      getGlacierStorageCharges, getRequestCharges, getTransitionCharges,
      S3UploadEntry.getTotalSize, S3UploadEntry.getNumOfObjects, S3UploadEntry.moveToGlacier,
      mkS3UploadEntry, substrMonths, s3_standard_first_50TB, s3_standard_next_450TB, s3_standard_over_500TB,
      glacier_storage_rate, s3_standard_1000_PUT_requests, glacier_transition_1000_requests,
      List.lookup, mcFreshJan]
    norm_num
  have h2 : (((bTwoMonths.generateReport).1.generateReport).2).lookup 24240
      = some mcArchivedJan := by
    simp +decide [bTwoMonths, emptyBucket, S3Bucket.uploadData, S3Bucket.addLifecycleRule,
      S3Bucket.generateReport, generateReportKeys, S3Bucket.applyLifecycleRules,
      applyRulesAux, S3Bucket.s3standardObjects, S3Bucket.applyTransition,
      S3Bucket.getMonthlyCharges, S3Bucket.getMonthVolume, S3Bucket.getMonthRequests,
      S3Bucket.getMonthTransitions, dictInsert, getS3StandardStorageCharges,
      getGlacierStorageCharges, getRequestCharges, getTransitionCharges,
      S3UploadEntry.getTotalSize, S3UploadEntry.getNumOfObjects, S3UploadEntry.moveToGlacier,
      mkS3UploadEntry, substrMonths, s3_standard_first_50TB, s3_standard_next_450TB, s3_standard_over_500TB,
      glacier_storage_rate, s3_standard_1000_PUT_requests, glacier_transition_1000_requests,
      List.lookup, mcArchivedJan]
    norm_num
  refine ⟨h1, h2, rfl, rfl, by norm_num, rfl, rfl, by norm_num, ?_⟩
  intro heq
  rw [heq, h2] at h1
  norm_num [mcFreshJan, mcArchivedJan, MonthlyCharges.mk.injEq] at h1

/-- Witness for claim C4: the pipeline/spec equality evaluated on the
two-month bucket. -/
theorem claimC4_witness :
    bCumulative.getMonthVolume 24241 "s3standard"
      = monthVolumeSpec bCumulative 24241 "s3standard" :=
  claimC4_monthVolume.1 bCumulative 24241 "s3standard"

/-- Witness for claim C5: idempotence at a concrete bucket and month. -/
theorem claimC5_witness :
    (bTwoMonths.applyLifecycleRules 24245).applyLifecycleRules 24245
      = bTwoMonths.applyLifecycleRules 24245 :=
  claimC5_idempotent bTwoMonths 24245

/-- Witness for claim C6: monotonicity along a concrete call sequence. -/
theorem claimC6_witness :
    dataMono bRuleFires.data
      (runOps bRuleFires [BucketOp.applyRules 24241, BucketOp.transitionOp 24240 "glacier",
        BucketOp.addRule ⟨"glacier", 0⟩]).data :=
  claimC6_monotonic bRuleFires [BucketOp.applyRules 24241,
    BucketOp.transitionOp 24240 "glacier", BucketOp.addRule ⟨"glacier", 0⟩]
